import Mathlib

/-
Shallow embedding of src/app.py (resolver-service).

The repository is a single Starlette application. The parts relevant to
the claims are:
  - module-level configuration read from the environment (app.py lines
    26-28): TECH_PORTAL_DOMAIN, CDN_DOMAIN_PATTERN (a regex string) and
    ALLOWED_SOURCE_DOMAINS (a comma-separated string, then .split)
  - resolve_google_link (lines 75-201): the 9-step resolution pipeline
    driving a Selenium browser, with try/except/finally around the body
    and driver.quit in the finally block
  - resolve_url (lines 204-253): the POST /resolve handler.

Strings are modelled as lists of characters.  Python regular-expression
calls in the code all use re.IGNORECASE and only their first match is
consumed, so each concrete pattern literal of the code is embedded as a
leftmost-first-match function.  The browser and the remote web pages are
modelled as a World: per-URL anchor lists, per-URL rendered content,
per-URL result of submitting the landing form, and per-URL navigation
success.  The environment-configured regex CDN_DOMAIN_PATTERN is not a
fixed literal of the code, so it is modelled as an abstract
first-match function in the configuration.
-/

set_option autoImplicit false

namespace ResolverService

/-- Characters of a Python string. -/
abbrev Cs := List Char

/-- Case-sensitive test that the first argument is an initial segment of
the second (used for the Python substring operator). -/
def startsWithB : Cs → Cs → Bool
  | [], _ => true
  | _ :: _, [] => false
  | a :: as, b :: bs => a == b && startsWithB as bs

/-- Python case-sensitive substring test: containsB n h models the
Python expression n in h. -/
def containsB (n : Cs) : Cs → Bool
  | [] => startsWithB n []
  | c :: t => startsWithB n (c :: t) || containsB n t

/-- Case-insensitive character comparison, as used by re.IGNORECASE on
the ASCII patterns of the code. -/
def lcEq (a b : Char) : Bool := a.toLower == b.toLower

/-- Case-insensitive initial-segment test. -/
def ciStarts : Cs → Cs → Bool
  | [], _ => true
  | _ :: _, [] => false
  | a :: as, b :: bs => lcEq a b && ciStarts as bs

/-- Case-insensitive substring test. -/
def ciContains (n : Cs) : Cs → Bool
  | [] => ciStarts n []
  | c :: t => ciStarts n (c :: t) || ciContains n t

/-- Index of the leftmost case-insensitive occurrence of n. -/
def ciIndexOf (n : Cs) : Cs → Option Nat
  | [] => if ciStarts n [] then some 0 else none
  | c :: t =>
    if ciStarts n (c :: t) then some 0
    else (ciIndexOf n t).map (fun k => k + 1)

/-- Hexadecimal digit class of the patterns, with re.IGNORECASE so both
cases of a-f are accepted. -/
def hexDigit (c : Char) : Bool :=
  (decide (48 ≤ c.toNat) && decide (c.toNat ≤ 57))
  || (decide (97 ≤ c.toNat) && decide (c.toNat ≤ 102))
  || (decide (65 ≤ c.toNat) && decide (c.toNat ≤ 70))

/-- Character class of the regex piece excluding whitespace and both
quote characters (ASCII whitespace as in the Python class backslash-s). -/
def notSQ (c : Char) : Bool :=
  !(c == ' ' || c == Char.ofNat 9 || c == Char.ofNat 10 || c == Char.ofNat 13
    || c == Char.ofNat 11 || c == Char.ofNat 12
    || c == Char.ofNat 34 || c == Char.ofNat 39)

/-- Match attempt at the current position for a pattern of the shape
literal prefix (case-insensitive) followed by a greedy run of at least
minRun characters of a class.  Returns the matched text. -/
def prefixRunHere (p : Cs) (good : Char → Bool) (minRun : Nat) (s : Cs) : Option Cs :=
  if ciStarts p s then
    let run := (s.drop p.length).takeWhile good
    if minRun ≤ run.length then some (s.take p.length ++ run) else none
  else none

/-- Leftmost match of a position-matcher: the first match of re.findall
is the match at the leftmost position where the matcher succeeds. -/
def scan (mh : Cs → Option Cs) : Cs → Option Cs
  | [] => mh []
  | c :: rest =>
    match mh (c :: rest) with
    | some m => some m
    | none => scan mh rest

/-- Position matcher for the primary token pattern of step 5 of
resolve_google_link (app.py line 119): pepe- followed by at least 12
hexadecimal digits, greedy. -/
def pepeHere : Cs → Option Cs := prefixRunHere "pepe-".data hexDigit 12

/-- Position matcher for the fallback token pattern of step 5
(app.py line 124): at least 24 hexadecimal digits, greedy. -/
def longHexHere : Cs → Option Cs := prefixRunHere [] hexDigit 24

/-- Position matcher for the fallback CDN pattern of step 7
(app.py line 146): cdn followed by at least one character that is not
whitespace or a quote, greedy. -/
def cdnFallbackHere : Cs → Option Cs := prefixRunHere "cdn".data notSQ 1

/-- Position matcher for the first final-link pattern of step 9
(app.py line 166): the exact googleusercontent download host followed by
a nonempty run without whitespace or quotes. -/
def g1Here : Cs → Option Cs :=
  prefixRunHere "https://video-downloads.googleusercontent.com/".data notSQ 1

/-- Position matcher for the second final-link pattern of step 9
(app.py line 167): an https URL whose quote-free run mentions
googleusercontent.  The greedy runs make the matched text extend to the
end of the maximal run. -/
def g2Here (s : Cs) : Option Cs :=
  if ciStarts "https://".data s then
    let run := (s.drop 8).takeWhile notSQ
    if ciContains "googleusercontent".data run then some (s.take 8 ++ run) else none
  else none

/-- Position matcher for the third final-link pattern of step 9
(app.py line 168): an https URL whose quote-free run mentions google and
then, at least six characters later, download. -/
def g3Here (s : Cs) : Option Cs :=
  if ciStarts "https://".data s then
    let run := (s.drop 8).takeWhile notSQ
    match ciIndexOf "google".data run with
    | some i =>
      if ciContains "download".data (run.drop (i + 6)) then some (s.take 8 ++ run)
      else none
    | none => none
  else none

/-- Position matcher for the last-resort media-extension pattern of
step 9 (app.py line 180): an https URL whose quote-free run contains a
dot followed by one of the listed media extensions.  The code keeps the
full first capture group, which spans the whole run. -/
def extHere (s : Cs) : Option Cs :=
  if ciStarts "https://".data s then
    let run := (s.drop 8).takeWhile notSQ
    if ciContains ".mp4".data run || ciContains ".mkv".data run
       || ciContains ".avi".data run || ciContains ".mov".data run
       || ciContains ".wmv".data run || ciContains ".flv".data run
       || ciContains ".webm".data run
    then some (s.take 8 ++ run) else none
  else none

/-- Python str.split on a comma, as applied to ALLOWED_SOURCE_DOMAINS
(app.py line 28).  Splitting the empty string yields a one-element list
holding the empty string, exactly as in Python. -/
def splitComma : Cs → List Cs
  | [] => [[]]
  | c :: rest =>
    if c == ',' then [] :: splitComma rest
    else
      match splitComma rest with
      | [] => [[c]]
      | s :: ss => (c :: s) :: ss

/-- Process-wide configuration read from the environment at startup
(app.py lines 26-28).  CDN_DOMAIN_PATTERN is an arbitrary regex string
configured in the environment, so it is modelled as an abstract
leftmost-first-match function. -/
structure Config where
  techPortalDomain : Cs
  cdnPrimary : Cs → Option Cs
  allowedEnv : Cs

/-- The allow-list actually used by the handler: the environment string
split on commas (app.py line 28). -/
def allowedDomains (cfg : Config) : List Cs := splitComma cfg.allowedEnv

/-- The rendered web, as seen through the Selenium driver: anchors and
page source per URL, the navigation outcome of submitting the landing
form on a page, and whether each navigation succeeds within the page
load timeout.  setupOk tells whether setup_browser succeeds. -/
structure World where
  setupOk : Bool
  navOk : Cs → Bool
  anchors : Cs → List Cs
  content : Cs → Cs
  submitTarget : Cs → Option Cs

/-- Session events observable from outside the pipeline: browser
creation, a driver.get navigation attempt, and driver.quit. -/
inductive Ev where
  | created : Ev
  | nav : Cs → Ev
  | closed : Ev
deriving DecidableEq

/-- Failure points of resolve_google_link: browser setup failure
(app.py line 67), a navigation raising inside the driver, and the four
explicit ValueError raises of the pipeline body. -/
inductive PErr where
  | setupFailure : PErr
  | navTimeout : PErr
  | noPortalLink : PErr
  | noToken : PErr
  | noCdn : PErr
  | noDownload : PErr
deriving DecidableEq

/-- Step 2 of resolve_google_link (app.py lines 88-99): the first anchor
whose href is truthy and contains the portal domain as a substring. -/
def portalLink (cfg : Config) (hrefs : List Cs) : Option Cs :=
  hrefs.find? (fun h => !h.isEmpty && containsB cfg.techPortalDomain h)

/-- The literal substring tested at app.py line 108 to decide whether a
landing form is present. -/
def landingMarker : Cs := "id=\"landing\"".data

/-- Step 4 of resolve_google_link (app.py lines 107-114): if the page
source mentions the landing marker, submit the form; a failing submit
script is caught and merely logged, leaving the page unchanged; a page
without the marker is left unchanged. -/
def formStep (w : World) (url : Cs) : Cs :=
  if containsB landingMarker (w.content url) then
    match w.submitTarget url with
    | some u => u
    | none => url
  else url

/-- Step 5 of resolve_google_link (app.py lines 118-130): first match of
the primary token pattern, else first match of the fallback pattern. -/
def findToken (content : Cs) : Option Cs :=
  match scan pepeHere content with
  | some t => some t
  | none => scan longHexHere content

/-- Step 7 of resolve_google_link (app.py lines 142-152): first match of
the configured CDN pattern, else first match of the generic fallback. -/
def findCdn (cfg : Config) (content : Cs) : Option Cs :=
  match cfg.cdnPrimary content with
  | some m => some m
  | none => scan cdnFallbackHere content

/-- The ordered final-link pattern list of step 9 (app.py lines 165-169). -/
def googleHeres : List (Cs → Option Cs) := [g1Here, g2Here, g3Here]

/-- First pattern of an ordered list that yields a match wins
(app.py lines 171-176). -/
def firstScan : List (Cs → Option Cs) → Cs → Option Cs
  | [], _ => none
  | p :: ps, c =>
    match scan p c with
    | some m => some m
    | none => firstScan ps c

/-- Step 9 of resolve_google_link (app.py lines 162-188): ordered
google patterns first, then the media-extension pattern as last resort. -/
def findGoogle (content : Cs) : Option Cs :=
  match firstScan googleHeres content with
  | some m => some m
  | none => scan extHere content

/-- The derived token URL of step 6 (app.py line 135). -/
def tokenUrl (cfg : Config) (tok : Cs) : Cs :=
  "https://".data ++ cfg.techPortalDomain ++ "/?go=".data ++ tok

/-- The derived distribution URL of step 8 (app.py line 152): the
literal scheme prepended to the first CDN match. -/
def cdnUrl (m : Cs) : Cs := "https://".data ++ m

/-- Steps 5 to 9 of resolve_google_link, from the page reached after the
optional form submission.  The second component lists the URLs passed to
driver.get, in order, including the attempt that times out. -/
def fromS4 (cfg : Config) (w : World) (url : Cs) : Except PErr Cs × List Cs :=
  match findToken (w.content url) with
  | none => (.error .noToken, [])
  | some tok =>
    if w.navOk (tokenUrl cfg tok) then
      match findCdn cfg (w.content (tokenUrl cfg tok)) with
      | none => (.error .noCdn, [tokenUrl cfg tok])
      | some m =>
        if w.navOk (cdnUrl m) then
          match findGoogle (w.content (cdnUrl m)) with
          | none => (.error .noDownload, [tokenUrl cfg tok, cdnUrl m])
          | some g => (.ok g, [tokenUrl cfg tok, cdnUrl m])
        else (.error .navTimeout, [tokenUrl cfg tok, cdnUrl m])
    else (.error .navTimeout, [tokenUrl cfg tok])

/-- The try block of resolve_google_link (app.py lines 80-191): steps 1
to 9.  The second component lists the URLs passed to driver.get. -/
def pipelineBody (cfg : Config) (w : World) (src : Cs) : Except PErr Cs × List Cs :=
  if w.navOk src then
    match portalLink cfg (w.anchors src) with
    | none => (.error .noPortalLink, [src])
    | some tech =>
      if w.navOk tech then
        ((fromS4 cfg w (formStep w tech)).1,
          src :: tech :: (fromS4 cfg w (formStep w tech)).2)
      else (.error .navTimeout, [src, tech])
  else (.error .navTimeout, [src])

/-- resolve_google_link (app.py lines 75-201).  setup_browser runs
before the try block, so a setup failure creates no session; otherwise
the session is created once and the finally block runs driver.quit
exactly once on every exit path of the body. -/
def resolve_google_link (cfg : Config) (w : World) (src : Cs) :
    Except PErr Cs × List Ev :=
  if w.setupOk then
    ((pipelineBody cfg w src).1,
      Ev.created :: ((pipelineBody cfg w src).2.map Ev.nav ++ [Ev.closed]))
  else (.error .setupFailure, [])

/-- The inbound request body as the handler observes it: badJson covers
a body that fails JSON parsing as well as a JSON value on which the
attribute lookup of .get raises, both caught at app.py lines 208-213. -/
inductive ReqBody where
  | badJson : ReqBody
  | dict : Option Cs → ReqBody

/-- Response bodies produced by resolve_url.  The failed payload keeps
the details field of app.py line 252: the pipeline error message,
truncated to 100 characters; none stands for a message produced by the
external renderer library rather than this code. -/
inductive RespBody where
  | invalidJson : RespBody
  | sourceRequired : RespBody
  | invalidSource : RespBody
  | resolved : Cs → Int → RespBody
  | failed : Option Cs → RespBody
deriving DecidableEq

/-- An HTTP response of the handler. -/
structure Resp where
  status : Nat
  body : RespBody
deriving DecidableEq

/-- Messages of the exceptions raised by the pipeline itself
(the four ValueError literals of app.py); none for exception text coming
from the renderer library, which this code does not fix. -/
def errDetails : PErr → Option Cs
  | .noPortalLink => some "No portal link found".data
  | .noToken => some "No access token found".data
  | .noCdn => some "No distribution link found".data
  | .noDownload => some "No download link found".data
  | .navTimeout => none
  | .setupFailure => none

/-- resolve_url (app.py lines 204-253): JSON parsing, the required-field
check, the allow-list loop with the Python substring test, then the
pipeline with success and failure responses.  now is the value of
time.time at result assembly; the second component is the session event
trace of the request. -/
def resolve_url (cfg : Config) (w : World) (now : Int) (req : ReqBody) :
    Resp × List Ev :=
  match req with
  | .badJson => (⟨400, .invalidJson⟩, [])
  | .dict none => (⟨400, .sourceRequired⟩, [])
  | .dict (some src) =>
    if src.isEmpty then (⟨400, .sourceRequired⟩, [])
    else if (allowedDomains cfg).any (fun d => containsB d src) then
      match (resolve_google_link cfg w src).1 with
      | .ok url =>
        (⟨200, .resolved url (now + 300)⟩, (resolve_google_link cfg w src).2)
      | .error e =>
        (⟨500, .failed ((errDetails e).map (fun s => s.take 100))⟩,
          (resolve_google_link cfg w src).2)
    else (⟨400, .invalidSource⟩, [])

/-- Number of driver.quit events in a trace. -/
def countClosed : List Ev → Nat
  | [] => 0
  | e :: t => (match e with | .closed => 1 | _ => 0) + countClosed t

/-- Number of browser-creation events in a trace. -/
def countCreated : List Ev → Nat
  | [] => 0
  | e :: t => (match e with | .created => 1 | _ => 0) + countCreated t

/-- Last event of a trace. -/
def lastEv : List Ev → Option Ev
  | [] => none
  | e :: t =>
    match t with
    | [] => some e
    | _ :: _ => lastEv t

/-- Configuration used by the concrete scenarios: portal domain
portal.example.test, a configured CDN pattern that matches nothing on
the scenario pages (the generic fallback then applies), and the
allow-list environment string links.example.test. -/
def cfgOK : Config where
  techPortalDomain := "portal.example.test".data
  cdnPrimary := fun _ => none
  allowedEnv := "links.example.test".data

/-- Source URL of the end-to-end scenario. -/
def srcScen : Cs := "https://links.example.test/archives/146649".data

/-- Portal URL carried by the anchor of the scenario S1 page. -/
def techUrlScen : Cs := "https://portal.example.test/x".data

/-- Token URL derived at step 6 in the scenario. -/
def tokUrlScen : Cs := "https://portal.example.test/?go=pepe-ab12cd34ef56ab12".data

/-- Distribution URL derived at step 8 in the scenario. -/
def cdnUrlScen : Cs := "https://cdn.dist.example.test/abc123".data

/-- World of the end-to-end scenario with a token literal the code can
extract: the S1 page holds the portal anchor, the portal page has no
landing form and shows the token, the token page shows the CDN host and
path, the CDN page shows the final googleusercontent URL. -/
def worldScen : World where
  setupOk := true
  navOk := fun _ => true
  anchors := fun u => if u == srcScen then [techUrlScen] else []
  content := fun u =>
    if u == techUrlScen then "pepe-ab12cd34ef56ab12".data
    else if u == tokUrlScen then "cdn.dist.example.test/abc123".data
    else if u == cdnUrlScen then
      "https://video-downloads.googleusercontent.com/final123".data
    else []
  submitTarget := fun _ => none

/-- World of the end-to-end scenario exactly as the spec sentence states
it, with S3 body text token-ab12cd34ef56ab12. -/
def worldScenLit : World where
  setupOk := true
  navOk := fun _ => true
  anchors := fun u => if u == srcScen then [techUrlScen] else []
  content := fun u =>
    if u == techUrlScen then "token-ab12cd34ef56ab12".data
    else if u == tokUrlScen then "cdn.dist.example.test/abc123".data
    else if u == cdnUrlScen then
      "https://video-downloads.googleusercontent.com/final123".data
    else []
  submitTarget := fun _ => none

/-- World in which every navigation times out. -/
def worldDead : World where
  setupOk := true
  navOk := fun _ => false
  anchors := fun _ => []
  content := fun _ => []
  submitTarget := fun _ => none

/-- World in which the source page renders but holds no anchors, so
step 2 fails with the no-portal-link error. -/
def worldNoPortal : World where
  setupOk := true
  navOk := fun _ => true
  anchors := fun _ => []
  content := fun _ => []
  submitTarget := fun _ => none

/-- Configuration with the allow-list environment variable set to the
empty string. -/
def cfgEmptyAllow : Config where
  techPortalDomain := "portal.example.test".data
  cdnPrimary := fun _ => none
  allowedEnv := []

/-- Configuration whose configured CDN pattern matches a full URL that
already carries a scheme, as a URL-shaped CDN_DOMAIN_PATTERN would. -/
def cfgDup : Config where
  techPortalDomain := "portal.example.test".data
  cdnPrimary := fun c =>
    scan (prefixRunHere "https://cdn9.example.test/".data notSQ 1) c
  allowedEnv := "links.example.test".data

/-- Page URL used in the doubled-scheme witness. -/
def urlDup : Cs := "https://portal.example.test/q".data

/-- World in which the token page content is a URL with a scheme that
the configured CDN pattern of cfgDup matches. -/
def worldDup : World where
  setupOk := true
  navOk := fun _ => true
  anchors := fun _ => []
  content := fun u =>
    if u == urlDup then "pepe-aaaaaaaaaaaa".data
    else if u == tokenUrl cfgDup "pepe-aaaaaaaaaaaa".data then
      "https://cdn9.example.test/file9".data
    else []
  submitTarget := fun _ => none

/-- Claim C1: the claim states that an empty or unset allow-list makes
validation fail closed, rejecting every /resolve request with 400 and
creating no renderer session.  The code does the opposite: splitting the
empty environment string yields a list holding the empty string, the
empty string is a substring of every source URL, so every request passes
validation, reaches the pipeline and creates a renderer session.  This
theorem evaluates the handler at the failing input: allow-list
environment set to the empty string and an arbitrary disallowed URL; the
response is 500 after the pipeline ran, not 400, and a session was
created; the final conjunct shows the substring check accepts every
source URL under this configuration. -/
theorem allowlist_empty_fails_open :
    allowedDomains cfgEmptyAllow = [[]]
    ∧ (resolve_url cfgEmptyAllow worldDead 0
        (.dict (some "https://evil.example/a".data))).1.status = 500
    ∧ countCreated (resolve_url cfgEmptyAllow worldDead 0
        (.dict (some "https://evil.example/a".data))).2 = 1
    ∧ ∀ src : Cs,
        (allowedDomains cfgEmptyAllow).any (fun d => containsB d src) = true := by
  refine ⟨rfl, by decide, by decide, ?_⟩
  intro src
  cases src <;> simp [allowedDomains, cfgEmptyAllow, splitComma, containsB, startsWithB]

/-- Claim C2: the claim states that validation is by host, so a URL
whose host is not allow-listed is rejected with 400 even when an
allow-listed domain occurs elsewhere in the URL string.  The code tests
plain substring membership over the whole URL, so the URL
https://evil.test/?q=links.example.test, whose host evil.test is not an
entry of the allow-list links.example.test, passes validation, creates a
renderer session and reaches the pipeline (here answering 500), instead
of being rejected with 400 and no session. -/
theorem host_check_bypassed :
    (resolve_url cfgOK worldDead 0
      (.dict (some "https://evil.test/?q=links.example.test".data))).1.status = 500
    ∧ countCreated (resolve_url cfgOK worldDead 0
        (.dict (some "https://evil.test/?q=links.example.test".data))).2 = 1
    ∧ containsB "links.example.test".data
        "https://evil.test/?q=links.example.test".data = true := by
  refine ⟨by decide, by decide, by decide⟩

/-- Claim C3, counterexample: the claim states that on pipeline failure
the 500 body is opaque, with no internal stage detail.  Evaluated on a
request whose source page has no portal anchor, the response body
carries the details field with the internal message naming the failed
stage, so the body is not opaque. -/
theorem failure_details_leaked_cex :
    (resolve_url cfgOK worldNoPortal 0
      (.dict (some "https://links.example.test/a".data))).1 =
      ⟨500, .failed (some "No portal link found".data)⟩ := by
  decide

/-- Claim C3, amended: on any pipeline failure the /resolve response is
a 500 whose body holds the generic error text together with a details
field carrying the first 100 characters of the internal error message;
the detail is returned to the caller as well as logged. -/
theorem failure_resp_includes_details (cfg : Config) (w : World) (now : Int)
    (src : Cs) (e : PErr)
    (h0 : src.isEmpty = false)
    (h1 : (allowedDomains cfg).any (fun d => containsB d src) = true)
    (h2 : (resolve_google_link cfg w src).1 = .error e) :
    (resolve_url cfg w now (.dict (some src))).1 =
      ⟨500, .failed ((errDetails e).map (fun s => s.take 100))⟩ := by
  simp [resolve_url, h0, h1, h2]

/-- Witness for the amended claim C3 at a concrete failing request. -/
theorem failure_resp_includes_details_witness :
    ("https://links.example.test/a".data.isEmpty = false
     ∧ (allowedDomains cfgOK).any
        (fun d => containsB d "https://links.example.test/a".data) = true
     ∧ (resolve_google_link cfgOK worldNoPortal
          "https://links.example.test/a".data).1 = .error .noPortalLink)
    ∧ (resolve_url cfgOK worldNoPortal 0
        (.dict (some "https://links.example.test/a".data))).1 =
        ⟨500, .failed ((errDetails .noPortalLink).map (fun s => s.take 100))⟩ :=
  ⟨⟨by rfl, by rfl, by rfl⟩,
    failure_resp_includes_details cfgOK worldNoPortal 0
      "https://links.example.test/a".data .noPortalLink (by rfl) (by rfl) (by rfl)⟩

/-- Claim C4, counterexample: with the scenario exactly as stated, the
S3 page body text token-ab12cd34ef56ab12 matches neither the primary
token pattern (which requires the fixed prefix pepe-) nor the fallback
(which requires at least 24 hexadecimal digits, while only 16 are
present), so the pipeline fails at the token stage and /resolve answers
500, not the claimed 200 with the final URL. -/
theorem scenario_literal_fails :
    (resolve_url cfgOK worldScenLit 7 (.dict (some srcScen))).1 =
      ⟨500, .failed (some "No access token found".data)⟩ := by
  decide

/-- Claim C4, amended: the end-to-end scenario with S3 body text
pepe-ab12cd34ef56ab12 (the fixed token prefix of the code is pepe-)
resolves to 200 with direct_download_url
https://video-downloads.googleusercontent.com/final123 and expires_at
equal to obtainedAt plus 300. -/
theorem scenario_resolves :
    (resolve_url cfgOK worldScen 7 (.dict (some srcScen))).1 =
      ⟨200, .resolved
        "https://video-downloads.googleusercontent.com/final123".data (7 + 300)⟩ := by
  decide

/-- Claim C5: for every request answered 200 with a resolved body, the
expiry equals the time of result assembly plus exactly 300 seconds. -/
theorem ttl_exact (cfg : Config) (w : World) (now : Int) (req : ReqBody)
    (url : Cs) (exp : Int)
    (h : (resolve_url cfg w now req).1.body = RespBody.resolved url exp) :
    exp - now = 300 := by
  cases req with
  | badJson => simp [resolve_url] at h
  | dict o =>
    cases o with
    | none => simp [resolve_url] at h
    | some src =>
      simp only [resolve_url] at h
      split at h
      · simp at h
      · split at h
        · split at h
          · simp only at h
            rw [RespBody.resolved.injEq] at h
            obtain ⟨-, h2⟩ := h
            omega
          · simp at h
        · simp at h

/-- Witness for claim C5 at the concrete successful scenario. -/
theorem ttl_exact_witness :
    (resolve_url cfgOK worldScen 7 (.dict (some srcScen))).1.body =
      RespBody.resolved
        "https://video-downloads.googleusercontent.com/final123".data 307
    ∧ (307 : Int) - 7 = 300 :=
  ⟨by decide,
    ttl_exact cfgOK worldScen 7 (.dict (some srcScen))
      "https://video-downloads.googleusercontent.com/final123".data 307 (by decide)⟩

/-- Count of quit events distributes over concatenation. -/
theorem countClosed_append (a b : List Ev) :
    countClosed (a ++ b) = countClosed a + countClosed b := by
  induction a with
  | nil => simp [countClosed]
  | cons e t ih => simp [countClosed, ih]; omega

/-- Navigation events contribute no quit event. -/
theorem countClosed_map_nav (l : List Cs) : countClosed (l.map Ev.nav) = 0 := by
  induction l with
  | nil => rfl
  | cons a t ih => simp [countClosed, ih]

/-- Count of creation events distributes over concatenation. -/
theorem countCreated_append (a b : List Ev) :
    countCreated (a ++ b) = countCreated a + countCreated b := by
  induction a with
  | nil => simp [countCreated]
  | cons e t ih => simp [countCreated, ih]; omega

/-- Navigation events contribute no creation event. -/
theorem countCreated_map_nav (l : List Cs) : countCreated (l.map Ev.nav) = 0 := by
  induction l with
  | nil => rfl
  | cons a t ih => simp [countCreated, ih]

/-- Last element of a nonempty trace ending in a given event. -/
theorem lastEv_cons_append (e : Ev) (l : List Ev) (a : Ev) :
    lastEv (e :: (l ++ [a])) = some a := by
  induction l generalizing e with
  | nil => rfl
  | cons b t ih => exact ih b

/-- Claim C6: whenever the browser session is created, driver.quit runs
exactly once before resolve_google_link returns, on the success path and
on every failure path alike; it is also the last session event of the
request, and the session is created exactly once. -/
theorem session_closed_once (cfg : Config) (w : World) (src : Cs)
    (h : w.setupOk = true) :
    countClosed (resolve_google_link cfg w src).2 = 1
    ∧ countCreated (resolve_google_link cfg w src).2 = 1
    ∧ lastEv (resolve_google_link cfg w src).2 = some Ev.closed := by
  refine ⟨?_, ?_, ?_⟩ <;> simp only [resolve_google_link, h, if_true]
  · simp [countClosed, countClosed_append, countClosed_map_nav]
  · simp [countCreated, countCreated_append, countCreated_map_nav]
  · exact lastEv_cons_append _ _ _

/-- Witness for claim C6 at the concrete successful scenario. -/
theorem session_closed_once_witness :
    worldScen.setupOk = true
    ∧ (countClosed (resolve_google_link cfgOK worldScen srcScen).2 = 1
       ∧ countCreated (resolve_google_link cfgOK worldScen srcScen).2 = 1
       ∧ lastEv (resolve_google_link cfgOK worldScen srcScen).2 = some Ev.closed) :=
  ⟨rfl, session_closed_once cfgOK worldScen srcScen rfl⟩

/-- Claim C7: each extraction stage tries its ordered pattern list and
the first pattern that yields a match determines the artifact, no later
pattern being tried: for the token stage the primary pepe pattern wins
when it matches and otherwise the long-hex fallback decides, with the
same Option-valued output shape; for the CDN stage the configured
pattern wins over the generic fallback; for the final-link stage the
three google patterns are tried in order and the media-extension pattern
only as last resort. -/
theorem first_pattern_wins (cfg : Config) (content : Cs) :
    ((scan pepeHere content).isSome = true →
        findToken content = scan pepeHere content)
    ∧ (scan pepeHere content = none →
        findToken content = scan longHexHere content)
    ∧ ((cfg.cdnPrimary content).isSome = true →
        findCdn cfg content = cfg.cdnPrimary content)
    ∧ (cfg.cdnPrimary content = none →
        findCdn cfg content = scan cdnFallbackHere content)
    ∧ ((scan g1Here content).isSome = true →
        findGoogle content = scan g1Here content)
    ∧ (scan g1Here content = none → (scan g2Here content).isSome = true →
        findGoogle content = scan g2Here content)
    ∧ (scan g1Here content = none → scan g2Here content = none →
        (scan g3Here content).isSome = true →
        findGoogle content = scan g3Here content)
    ∧ (scan g1Here content = none → scan g2Here content = none →
        scan g3Here content = none →
        findGoogle content = scan extHere content) := by
  refine ⟨?_, ?_, ?_, ?_, ?_, ?_, ?_, ?_⟩
  · intro h
    cases hp : scan pepeHere content with
    | none => rw [hp] at h; simp at h
    | some t => simp [findToken, hp]
  · intro h
    simp [findToken, h]
  · intro h
    cases hp : cfg.cdnPrimary content with
    | none => rw [hp] at h; simp at h
    | some t => simp [findCdn, hp]
  · intro h
    simp [findCdn, h]
  · intro h
    cases hp : scan g1Here content with
    | none => rw [hp] at h; simp at h
    | some t => simp [findGoogle, googleHeres, firstScan, hp]
  · intro h1 h2
    cases hp : scan g2Here content with
    | none => rw [hp] at h2; simp at h2
    | some t => simp [findGoogle, googleHeres, firstScan, h1, hp]
  · intro h1 h2 h3
    cases hp : scan g3Here content with
    | none => rw [hp] at h3; simp at h3
    | some t => simp [findGoogle, googleHeres, firstScan, h1, h2, hp]
  · intro h1 h2 h3
    simp [findGoogle, googleHeres, firstScan, h1, h2, h3]

/-- Content used by the fallback-ordering witness: no pepe token, one
bare 24-digit hexadecimal run. -/
def w7content : Cs := "no tag abcdefabcdefabcdefabcdef here".data

/-- Witness for claim C7: on content without a primary-pattern match the
token stage succeeds through the fallback with the same output shape. -/
theorem first_pattern_wins_witness :
    scan pepeHere w7content = none
    ∧ findToken w7content = scan longHexHere w7content
    ∧ scan longHexHere w7content = some "abcdefabcdefabcdefabcdef".data :=
  ⟨by rfl, (first_pattern_wins cfgOK w7content).2.1 (by rfl), by rfl⟩

/-- Claim C8: when the portal page content lacks the landing form
marker, the form step leaves the page unchanged and the pipeline
proceeds directly into the token stage and the rest of the chain; the
absence of the form never produces a failure by itself. -/
theorem missing_form_proceeds (cfg : Config) (w : World) (src tech : Cs)
    (h1 : w.navOk src = true)
    (h2 : portalLink cfg (w.anchors src) = some tech)
    (h3 : w.navOk tech = true)
    (h4 : containsB landingMarker (w.content tech) = false) :
    formStep w tech = tech
    ∧ pipelineBody cfg w src =
        ((fromS4 cfg w tech).1, src :: tech :: (fromS4 cfg w tech).2) := by
  have hf : formStep w tech = tech := by simp [formStep, h4]
  exact ⟨hf, by simp [pipelineBody, h1, h2, h3, hf]⟩

/-- Witness for claim C8 at the concrete scenario, whose portal page has
no landing form. -/
theorem missing_form_proceeds_witness :
    (worldScen.navOk srcScen = true
     ∧ portalLink cfgOK (worldScen.anchors srcScen) = some techUrlScen
     ∧ containsB landingMarker (worldScen.content techUrlScen) = false)
    ∧ (formStep worldScen techUrlScen = techUrlScen
       ∧ pipelineBody cfgOK worldScen srcScen =
          ((fromS4 cfgOK worldScen techUrlScen).1,
            srcScen :: techUrlScen :: (fromS4 cfgOK worldScen techUrlScen).2)) :=
  ⟨⟨rfl, by decide, by decide⟩,
    missing_form_proceeds cfgOK worldScen srcScen techUrlScen rfl (by decide)
      rfl (by decide)⟩

/-- Matching initial segments cancel on both sides of the test. -/
theorem startsWithB_append (a b c : Cs) :
    startsWithB (a ++ b) (a ++ c) = startsWithB b c := by
  induction a with
  | nil => rfl
  | cons x t ih => simp [startsWithB, ih]

/-- Claim C9: the URL navigated at the distribution stage is always the
literal scheme https:// concatenated with the first CDN match, so
whenever the matched string itself already begins with https:// the
derived URL begins with a doubled scheme. -/
theorem s7_url_scheme_concat (cfg : Config) (w : World) (url tok m : Cs)
    (h1 : findToken (w.content url) = some tok)
    (h2 : w.navOk (tokenUrl cfg tok) = true)
    (h3 : findCdn cfg (w.content (tokenUrl cfg tok)) = some m) :
    cdnUrl m ∈ (fromS4 cfg w url).2
    ∧ cdnUrl m = "https://".data ++ m
    ∧ (startsWithB "https://".data m = true →
        startsWithB "https://https://".data (cdnUrl m) = true) := by
  refine ⟨?_, rfl, ?_⟩
  · simp only [fromS4, h1, h2, h3, if_true]
    by_cases hn : w.navOk (cdnUrl m) = true
    · simp only [hn, if_true]
      cases hg : findGoogle (w.content (cdnUrl m)) <;> simp
    · simp only [Bool.not_eq_true] at hn
      simp [hn]
  · intro h
    have hsplit : ("https://https://".data : Cs) =
        "https://".data ++ "https://".data := by decide
    rw [hsplit, cdnUrl, startsWithB_append]
    exact h

/-- Witness for claim C9: a configured CDN pattern matching a full URL
makes the pipeline navigate to a URL with a doubled scheme. -/
theorem s7_url_scheme_concat_witness :
    (findToken (worldDup.content urlDup) = some "pepe-aaaaaaaaaaaa".data
     ∧ findCdn cfgDup
        (worldDup.content (tokenUrl cfgDup "pepe-aaaaaaaaaaaa".data)) =
        some "https://cdn9.example.test/file9".data)
    ∧ cdnUrl "https://cdn9.example.test/file9".data ∈
        (fromS4 cfgDup worldDup urlDup).2
    ∧ startsWithB "https://https://".data
        (cdnUrl "https://cdn9.example.test/file9".data) = true :=
  ⟨⟨by decide, by decide⟩,
    (s7_url_scheme_concat cfgDup worldDup urlDup "pepe-aaaaaaaaaaaa".data
      "https://cdn9.example.test/file9".data (by decide) (by decide) (by decide)).1,
    (s7_url_scheme_concat cfgDup worldDup urlDup "pepe-aaaaaaaaaaaa".data
      "https://cdn9.example.test/file9".data (by decide) (by decide) (by decide)).2.2
      (by decide)⟩

/-- Claim C10: a request body that does not parse as JSON is answered
400 with the invalid-JSON error body, the event trace is empty, and in
particular no renderer session is created. -/
theorem invalid_json_400 (cfg : Config) (w : World) (now : Int) :
    resolve_url cfg w now .badJson = (⟨400, .invalidJson⟩, ([] : List Ev))
    ∧ countCreated (resolve_url cfg w now .badJson).2 = 0 :=
  ⟨rfl, rfl⟩

end ResolverService
